import Mathlib

/-!
Verification development for the `logexperimental` output/logging package
(src/pkg/logexperimental/log.go, src/pkg/logexperimental/tty.go and the
PlainWriter file shipped among the unnamed sources).

Strings are modelled as Lean `String` (a list of characters); the shared
`bytes.Buffer` of structured records is modelled as a `String` that grows by
appending, exactly mirroring the `WriteString` calls in the source.  Machine
I/O (the terminal stream) is modelled as a `term` string recording everything
written to the logger's `out` stream.  The logrus sink (`w.out.Info...`) and
the optional rotating file sink perform external I/O and carry no state that
the claims mention; they are not tracked.
-/

/-- Go `unicode.IsSpace` restricted to the Latin-1 range, which is the set of
characters the source can actually meet in trimming decisions for the claims
under study: space, tab, newline, vertical tab, form feed, carriage return,
next line (U+0085) and no-break space (U+00A0). -/
def goIsSpace (c : Char) : Bool :=
  c = ' ' || c = '\t' || c = '\n' || c = '\x0b' || c = '\x0c' || c = '\r' ||
  c.toNat = 133 || c.toNat = 160

/-- Go `strings.TrimRightFunc(s, unicode.IsSpace)`: drop trailing whitespace. -/
def trimRightSpace (s : String) : String :=
  ⟨(s.data.reverse.dropWhile goIsSpace).reverse⟩

/-- Go `strings.TrimSpace`: drop leading and trailing whitespace. -/
def trimSpaceGo (s : String) : String :=
  ⟨((s.data.dropWhile goIsSpace).reverse.dropWhile goIsSpace).reverse⟩

/-- Lower-case an ASCII letter, the fragment of Go `strings.ToLower` exercised
by `logrus.ParseLevel` on the level names the source passes around. -/
def toLowerAscii (s : String) : String :=
  ⟨s.data.map (fun c => if 'A' ≤ c && c ≤ 'Z' then Char.ofNat (c.toNat + 32) else c)⟩

/-- Logrus logging levels (`github.com/sirupsen/logrus`, `Level`). -/
inductive Logrus.Level
  | panicLevel
  | fatalLevel
  | errorLevel
  | warnLevel
  | infoLevel
  | debugLevel
  | traceLevel
deriving DecidableEq

/-- Logrus `ParseLevel`: case-insensitive parse of a level name; `none` models
the error return. -/
def Logrus.ParseLevel (s : String) : Option Logrus.Level :=
  match toLowerAscii s with
  | "panic" => some .panicLevel
  | "fatal" => some .fatalLevel
  | "error" => some .errorLevel
  | "warn" => some .warnLevel
  | "warning" => some .warnLevel
  | "info" => some .infoLevel
  | "debug" => some .debugLevel
  | "trace" => some .traceLevel
  | _ => none

/-- Logrus `Level.String()`. -/
def Logrus.levelString : Logrus.Level → String
  | .panicLevel => "panic"
  | .fatalLevel => "fatal"
  | .errorLevel => "error"
  | .warnLevel => "warning"
  | .infoLevel => "info"
  | .debugLevel => "debug"
  | .traceLevel => "trace"

/-- Go `strconv.ParseBool`: the exact accepted spellings; `none` models the
error return. -/
def parseBool : String → Option Bool
  | "1" => some true
  | "t" => some true
  | "T" => some true
  | "true" => some true
  | "TRUE" => some true
  | "True" => some true
  | "0" => some false
  | "f" => some false
  | "F" => some false
  | "false" => some false
  | "FALSE" => some false
  | "False" => some false
  | _ => none

/-- Json level string for information (log.go line 55). -/
def InfoLevel : String := "info"

/-- Json level string for warning (log.go line 57). -/
def WarningLevel : String := "warn"

/-- Json level string for error (log.go line 59). -/
def ErrorLevel : String := "error"

/-- Json level string for debug (log.go line 61). -/
def DebugLevel : String := "debug"

/-- Hexadecimal digit character, lower case, as Go `encoding/json` prints
control characters. -/
def hexDigit (n : Nat) : Char :=
  if n < 10 then Char.ofNat (48 + n) else Char.ofNat (87 + n)

/-- Go `encoding/json` escaping of a single character inside a string literal
(with the default HTML escaping of angle brackets and ampersand). -/
def jsonEscapeChar (c : Char) : List Char :=
  if c = '"' then ['\\', '"']
  else if c = '\\' then ['\\', '\\']
  else if c = '\n' then ['\\', 'n']
  else if c = '\r' then ['\\', 'r']
  else if c = '\t' then ['\\', 't']
  else if c = '<' then ['\\', 'u', '0', '0', '3', 'c']
  else if c = '>' then ['\\', 'u', '0', '0', '3', 'e']
  else if c = '&' then ['\\', 'u', '0', '0', '2', '6']
  else if c.toNat < 32 then
    ['\\', 'u', '0', '0', hexDigit (c.toNat / 16), hexDigit (c.toNat % 16)]
  else [c]

/-- Go `encoding/json` escaping of a whole string. -/
def jsonEscape (s : String) : String :=
  ⟨(s.data.map jsonEscapeChar).flatten⟩

/-- A JSON string literal: quoted and escaped. -/
def qstr (s : String) : String :=
  "\"" ++ jsonEscape s ++ "\""

/-- Modelled from the spec: the `jsonMessage` struct declaration is not under
src (only its two identical users `TTYWriter.convertToJSON` and
`PlainWriter.convertToJSON` are); field names and order follow the structured
record format of spec section 6:
`\x7b"level": ..., "message": ..., "stage": ..., "timestamp": ...\x7d`.
`json.Marshal` of a struct of three strings and an integer cannot fail, so the
marshal-error branch of `convertToJSON` (which would drop the line) is
unreachable and the encoding is modelled as total. -/
def marshalJSONMessage (level message stage : String) (ts : Int) : String :=
  "\x7b\"level\":" ++ qstr level ++ ",\"message\":" ++ qstr message ++
  ",\"stage\":" ++ qstr stage ++ ",\"timestamp\":" ++ toString ts ++ "\x7d"

/-- The character class `[[\]()#;?]` of the ANSI regular expression
(tty.go line 30). -/
def isClsChar (c : Char) : Bool :=
  c = '[' || c = ']' || c = '(' || c = ')' || c = '#' || c = ';' || c = '?'

/-- The character class `[a-zA-Z\d]` of the ANSI regular expression. -/
def isGoAlnum (c : Char) : Bool :=
  ('a' ≤ c && c ≤ 'z') || ('A' ≤ c && c ≤ 'Z') || c.isDigit

/-- The final-byte character class `[\dA-PRZcf-ntqry=><~]` of the ANSI
regular expression. -/
def isFinalByte (c : Char) : Bool :=
  c.isDigit || ('A' ≤ c && c ≤ 'P') || c = 'R' || c = 'Z' || c = 'c' ||
  ('f' ≤ c && c ≤ 'n') || c = 't' || c = 'q' || c = 'r' || c = 'y' ||
  c = '=' || c = '>' || c = '<' || c = '~'

/-- The introducer class `[\u001B\u009B]` of the ANSI regular expression. -/
def isEscIntro (c : Char) : Bool :=
  c = '\x1b' || c.toNat = 155

/-- First alternative of the ANSI regular expression after the introducer and
bracket run: `(?:(?:[a-zA-Z\d]*(?:;[a-zA-Z\d]*)*)?\u0007)`.  The group before
the BEL character matches exactly the words over alnum and semicolon, and BEL
belongs to neither class, so the leftmost-first (Perl preference) parse is the
maximal such run followed by BEL; returns the rest after the match. -/
def ansiAltA (cs : List Char) : Option (List Char) :=
  match cs.dropWhile (fun c => isGoAlnum c || c = ';') with
  | '\x07' :: rest => some rest
  | _ => none

/-- Backtracking repetition of `\d` between `lo` and `hi` times, preferring
more digits first (greedy), then handing the rest to the continuation `k`;
mirrors Go regexp preference order for `\d{lo,hi}`. -/
def ansiTryDigits : Nat → Nat → List Char → (List Char → Option (List Char)) →
    Option (List Char)
  | lo, 0, cs, k => if lo = 0 then k cs else none
  | lo, _ + 1, [], k => if lo = 0 then k [] else none
  | lo, hi + 1, c :: rest, k =>
    if c.isDigit then
      match ansiTryDigits (lo - 1) hi rest k with
      | some r => some r
      | none => if lo = 0 then k (c :: rest) else none
    else if lo = 0 then k (c :: rest) else none

/-- Greedy star over the group `(?:;\d{0,4})` with backtracking, preferring
more iterations; `fuel` bounds the recursion and is instantiated with the
length of the input, which suffices because every iteration consumes the
leading semicolon. -/
def ansiTryParamBlocks : Nat → List Char → (List Char → Option (List Char)) →
    Option (List Char)
  | 0, cs, k => k cs
  | fuel + 1, cs, k =>
    match cs with
    | ';' :: rest =>
      match ansiTryDigits 0 4 rest (fun u => ansiTryParamBlocks fuel u k) with
      | some r => some r
      | none => k cs
    | _ => k cs

/-- One final byte, closing the second alternative of the regular
expression. -/
def ansiFinalByte : List Char → Option (List Char)
  | c :: rest => if isFinalByte c then some rest else none
  | [] => none

/-- Second alternative after the introducer and bracket run:
`(?:(?:\d{1,4}(?:;\d{0,4})*)?[\dA-PRZcf-ntqry=><~])`, with the optional group
tried present-first as Go regexp preference dictates. -/
def ansiAltB (cs : List Char) : Option (List Char) :=
  match ansiTryDigits 1 4 cs
      (fun u => ansiTryParamBlocks u.length u ansiFinalByte) with
  | some r => some r
  | none => ansiFinalByte cs

/-- Greedy star over the bracket class `[[\]()#;?]*` with backtracking:
longer runs are preferred, shorter runs are retried on failure of the
continuation. -/
def ansiTryCls : List Char → (List Char → Option (List Char)) →
    Option (List Char)
  | [], k => k []
  | c :: rest, k =>
    if isClsChar c then
      match ansiTryCls rest k with
      | some r => some r
      | none => k (c :: rest)
    else k (c :: rest)

/-- Match of the body of `ansiRegex` (tty.go lines 30-32) right after the
introducer character, following Go regexp leftmost-first semantics: bracket
run, then alternative A (BEL-terminated) preferred over alternative B
(final byte).  Returns the input remaining after the match. -/
def ansiMatchRest (cs : List Char) : Option (List Char) :=
  ansiTryCls cs (fun u =>
    match ansiAltA u with
    | some r => some r
    | none => ansiAltB u)

/-- One pass of Go `ansiRegex.ReplaceAllString(s, "")` over the character
list: scan left to right; at an introducer character try to match the rest of
the escape sequence, and on success drop the match and continue right after
it (matches never overlap), otherwise keep the character.  `fuel` is
instantiated with the list length, which suffices because every step consumes
at least one character. -/
def stripAnsiFuel : Nat → List Char → List Char
  | 0, cs => cs
  | _ + 1, [] => []
  | fuel + 1, c :: rest =>
    if isEscIntro c then
      match ansiMatchRest rest with
      | some r => stripAnsiFuel fuel r
      | none => c :: stripAnsiFuel fuel rest
    else c :: stripAnsiFuel fuel rest

/-- Go `ansiRegex.ReplaceAllString(s, "")` on strings. -/
def stripAnsiStr (s : String) : String :=
  ⟨stripAnsiFuel s.data.length s.data⟩

/-- Go `strings.Replacer` built by `EnableMasking`, one pass over the input:
at each position the highest-priority pattern whose prefix matches wins,
where priority is the order of the `oldnew` pairs (earlier pair wins), every
pattern is replaced by the fixed placeholder `"***"`, and scanning resumes
right after the replaced occurrence.  Patterns coming from `AddMaskedWord`
are never empty (whitespace-only words are rejected), which the non-empty
filter reflects.  `fuel` is instantiated with the input length, which
suffices because every step consumes at least one character. -/
def replaceFuel (words : List (List Char)) : Nat → List Char → List Char
  | 0, cs => cs
  | _ + 1, [] => []
  | fuel + 1, c :: rest =>
    match words.find? (fun w => !w.isEmpty && w.isPrefixOf (c :: rest)) with
    | some w => '*' :: '*' :: '*' :: replaceFuel words fuel ((c :: rest).drop w.length)
    | none => c :: replaceFuel words fuel rest

/-- Go `replacer.Replace` for the replacer whose pairs map each word of
`words` (in order) to `"***"`. -/
def goReplace (words : List String) (s : String) : String :=
  ⟨replaceFuel (words.map String.data) s.data.length s.data⟩

/-- Insertion of a word into a length-descending sorted list, keeping it
after all words of greater or equal length. -/
def insertByLenDesc (w : String) : List String → List String
  | [] => [w]
  | x :: xs =>
    if w.length ≤ x.length then x :: insertByLenDesc w xs
    else w :: x :: xs

/-- The length-descending sort performed by `EnableMasking`
(log.go lines 299-301); `sort.Slice` with `len(w i) > len(w j)` orders the
masked words by decreasing length (the order among equal lengths is
irrelevant to the replacer because two distinct words of equal length cannot
match at the same position). -/
def sortByLenDesc : List String → List String
  | [] => []
  | x :: xs => insertByLenDesc x (sortByLenDesc xs)

/-- Modelled from the spec: the `TTYFormat` output-mode constant is not under
src (only its users are); the spec's OutputMode enum names the interactive
variant, rendered here by the conventional mode string. -/
def TTYFormat : String := "tty"

/-- Modelled from the spec: the `PlainFormat` output-mode constant is not
under src; the spec's OutputMode enum names the plain variant. -/
def PlainFormat : String := "plain"

/-- State of a `Logger` together with its active writer and the streams they
write to.  The writer variants of the source keep `stage` and a pointer to
the shared structured buffer in the writer struct; because the buffer is
shared by reference (spec section 3, Lifetimes) the flattened record is an
equivalent rendering.  `term` records everything written to the logger's
`out` stream. -/
structure LogState where
  level : Logrus.Level
  writerMode : String
  stage : String
  term : String
  buf : String
  maskedWords : List String
  isMasked : Bool
  frozenWords : List String
deriving DecidableEq

/-- Shared `convertToJSON` of both writer variants (tty.go lines 273-290 and
the identical PlainWriter method): trim trailing whitespace; if the stage or
the trimmed message is empty produce nothing, otherwise the JSON encoding of
the record with ANSI escapes stripped from the message. -/
def convertToJSON (level stage message : String) (now : Int) : String :=
  if stage = "" ∨ trimRightSpace message = "" then ""
  else marshalJSONMessage level (stripAnsiStr (trimRightSpace message)) stage now

/-- TTYWriter `Fprintf` (tty.go lines 203-214): print `msg` to the target
writer; when the target is the logger's own out stream and the message is
non-empty, convert it to a JSON record at info level and append record plus
newline to the structured buffer only when the record is non-empty. -/
def TTYWriter.Fprintf (st : LogState) (toOut : Bool) (msg : String)
    (now : Int) : LogState :=
  if toOut then
    if msg ≠ "" then
      if convertToJSON InfoLevel st.stage msg now ≠ "" then
        { st with term := st.term ++ msg,
                  buf := st.buf ++ convertToJSON InfoLevel st.stage msg now ++ "\n" }
      else { st with term := st.term ++ msg }
    else { st with term := st.term ++ msg }
  else st

/-- PlainWriter `Fprintf` (PlainWriter file lines 313-321): like the TTY
variant but, unlike every other append site in the source, the `WriteString`
pair is not guarded by a non-emptiness check of the converted record. -/
def PlainWriter.Fprintf (st : LogState) (toOut : Bool) (msg : String)
    (now : Int) : LogState :=
  if toOut then
    if msg ≠ "" then
      { st with term := st.term ++ msg,
                buf := st.buf ++ convertToJSON InfoLevel st.stage msg now ++ "\n" }
    else { st with term := st.term ++ msg }
  else st

/-- TTYWriter `Print` (tty.go lines 230-242): print to the out stream, then
append the JSON record at error level when message and record are
non-empty. -/
def TTYWriter.Print (st : LogState) (msg : String) (now : Int) : LogState :=
  if msg ≠ "" then
    if convertToJSON ErrorLevel st.stage msg now ≠ "" then
      { st with term := st.term ++ msg,
                buf := st.buf ++ convertToJSON ErrorLevel st.stage msg now ++ "\n" }
    else { st with term := st.term ++ msg }
  else { st with term := st.term ++ msg }

/-- PlainWriter `Print` (PlainWriter file lines 336-347): like the TTY
variant but the record is appended at info level. -/
def PlainWriter.Print (st : LogState) (msg : String) (now : Int) : LogState :=
  if msg ≠ "" then
    if convertToJSON InfoLevel st.stage msg now ≠ "" then
      { st with term := st.term ++ msg,
                buf := st.buf ++ convertToJSON InfoLevel st.stage msg now ++ "\n" }
    else { st with term := st.term ++ msg }
  else { st with term := st.term ++ msg }

/-- The plain question symbol `" ? "` (log.go line 51). -/
def questionSymbol : String := " ? "

/-- The colored question symbol: high-magenta background, black foreground
(log.go line 52, `fatih/color` SGR rendering). -/
def coloredQuestionSymbol : String := "\x1b[105;30m ? \x1b[0m"

/-- Go `color.MagentaString` (`fatih/color`): wrap in SGR code 35. -/
def magentaString (s : String) : String := "\x1b[35m" ++ s ++ "\x1b[0m"

/-- TTYWriter `Question` (tty.go lines 146-152): print the colored question
symbol and the message in magenta through `Fprintf` on the out stream, and
return `nil` unconditionally (the `none` component). -/
def TTYWriter.Question (st : LogState) (msg : String) (now : Int) :
    LogState × Option String :=
  (TTYWriter.Fprintf st true (coloredQuestionSymbol ++ " " ++ magentaString msg) now,
   none)

/-- PlainWriter `Question` (PlainWriter file lines 260-264): print the plain
question symbol and the message through `Fprintf` on the out stream, and
return `nil` unconditionally. -/
def PlainWriter.Question (st : LogState) (msg : String) (now : Int) :
    LogState × Option String :=
  (PlainWriter.Fprintf st true (questionSymbol ++ " " ++ msg) now, none)

/-- Logger `redactMessage` (log.go lines 315-320): apply the frozen replacer
when masking is enabled, otherwise return the message unchanged. -/
def Logger.redactMessage (st : LogState) (message : String) : String :=
  if st.isMasked then goReplace st.frozenWords message else message

/-- Logger `AddMaskedWord` (log.go lines 290-294): append the word to the
live set unless it is empty after trimming. -/
def Logger.AddMaskedWord (st : LogState) (word : String) : LogState :=
  if trimSpaceGo word ≠ "" then
    { st with maskedWords := st.maskedWords ++ [word] }
  else st

/-- Logger `EnableMasking` (log.go lines 297-308): sort the masked words
descending by length, freeze the replacer over that list, and turn masking
on. -/
def Logger.EnableMasking (st : LogState) : LogState :=
  { st with isMasked := true,
            maskedWords := sortByLenDesc st.maskedWords,
            frozenWords := sortByLenDesc st.maskedWords }

/-- Logger `DisableMasking` (log.go lines 311-313). -/
def Logger.DisableMasking (st : LogState) : LogState :=
  { st with isMasked := false }

/-- Logger `SetStage` (log.go lines 150-152, forwarding to the writer-held
stage field). -/
def Logger.SetStage (st : LogState) (stage : String) : LogState :=
  { st with stage := stage }

/-- Logger `SetOutputFormat` (log.go lines 140-142).  Modelled from the spec:
`Logger.getWriter` is not under src (only its callers are); per spec
sections 3 and 4.1 it constructs the writer variant of the requested mode
sharing the Logger-owned structured buffer by reference, and the
writer-local `stage` field starts at its zero value, as in the src
constructors `newTTYWriter`/`newPlainWriter` which leave it unset. -/
def Logger.SetOutputFormat (st : LogState) (format : String) : LogState :=
  { st with writerMode := format, stage := "" }

/-- Logger `GetOutputBuffer` (log.go lines 323-325). -/
def Logger.GetOutputBuffer (st : LogState) : String :=
  st.buf

/-- Logger `SetLevel` (log.go lines 111-116): update the level only when the
name parses; the parse error is swallowed (the function is total and returns
only the updated state, mirroring the void Go method). -/
def Logger.SetLevel (st : LogState) (level : String) : LogState :=
  match Logrus.ParseLevel level with
  | some l => { st with level := l }
  | none => st

/-- Logger `GetLevel` (log.go lines 119-122). -/
def Logger.GetLevel (st : LogState) : String :=
  Logrus.levelString st.level

/-- Logger `Print` (log.go lines 271-275): redact, then dispatch to the
active writer variant. -/
def Logger.Print (st : LogState) (msg : String) (now : Int) : LogState :=
  if st.writerMode = TTYFormat then
    TTYWriter.Print st (Logger.redactMessage st msg) now
  else
    PlainWriter.Print st (Logger.redactMessage st msg) now

/-- Logger `Question` (log.go lines 230-232): forward to the active writer
variant, returning its error value. -/
def Logger.Question (st : LogState) (msg : String) (now : Int) :
    LogState × Option String :=
  if st.writerMode = TTYFormat then TTYWriter.Question st msg now
  else PlainWriter.Question st msg now

/-- A call on the `OktetoWriter` interface as issued by the Logger facade:
the method invoked and the message text handed over (log.go lines
160-282). -/
inductive WriterCall
  | debugCall (msg : String)
  | infoCall (msg : String)
  | errorCall (msg : String)
  | successCall (msg : String)
  | warningCall (msg : String)
  | informationCall (msg : String)
  | hintCall (msg : String)
  | questionCall (msg : String)
  | printCall (msg : String)
  | printlnCall (msg : String)
  | fprintlnCall (msg : String)
  | failCall (msg : String)
deriving DecidableEq

/-- Logger `Debug` dispatch (log.go lines 160-162): forwards the text to the
writer directly. -/
def Logger.DebugCall (_st : LogState) (msg : String) : WriterCall :=
  .debugCall msg

/-- Logger `Info` dispatch (log.go lines 170-172). -/
def Logger.InfoCall (_st : LogState) (msg : String) : WriterCall :=
  .infoCall msg

/-- Logger `Error` dispatch (log.go lines 180-182). -/
def Logger.ErrorCall (_st : LogState) (msg : String) : WriterCall :=
  .errorCall msg

/-- Logger `Success` dispatch (log.go lines 220-222). -/
def Logger.SuccessCall (_st : LogState) (msg : String) : WriterCall :=
  .successCall msg

/-- Logger `Warning` dispatch (log.go lines 235-237). -/
def Logger.WarningCall (_st : LogState) (msg : String) : WriterCall :=
  .warningCall msg

/-- Logger `Information` dispatch (log.go lines 225-227). -/
def Logger.InformationCall (_st : LogState) (msg : String) : WriterCall :=
  .informationCall msg

/-- Logger `Hint` dispatch (log.go lines 245-247). -/
def Logger.HintCall (_st : LogState) (msg : String) : WriterCall :=
  .hintCall msg

/-- Logger `Question` dispatch (log.go lines 230-232). -/
def Logger.QuestionCall (_st : LogState) (msg : String) : WriterCall :=
  .questionCall msg

/-- Logger `Print` dispatch (log.go lines 271-275): redacts first. -/
def Logger.PrintCall (st : LogState) (msg : String) : WriterCall :=
  .printCall (Logger.redactMessage st msg)

/-- Logger `Printf` dispatch (log.go lines 278-282): redacts the formatted
text, then hands it to the writer through `Print`. -/
def Logger.PrintfCall (st : LogState) (msg : String) : WriterCall :=
  .printCall (Logger.redactMessage st msg)

/-- Logger `Println` dispatch (log.go lines 257-261): redacts first. -/
def Logger.PrintlnCall (st : LogState) (msg : String) : WriterCall :=
  .printlnCall (Logger.redactMessage st msg)

/-- Logger `FPrintln` dispatch (log.go lines 264-268): redacts first. -/
def Logger.FPrintlnCall (st : LogState) (msg : String) : WriterCall :=
  .fprintlnCall (Logger.redactMessage st msg)

/-- Logger `Fail` dispatch (log.go lines 250-254): redacts first. -/
def Logger.FailCall (st : LogState) (msg : String) : WriterCall :=
  .failCall (Logger.redactMessage st msg)

/-- Logger `loadBool` (log.go lines 332-342): empty value defaults to
`"false"`; a value `strconv.ParseBool` rejects makes the function warn via
`log.Yellow` and fall through to the zero value `false`.  `writerSet` says
whether `log.writer` has already been assigned: during `NewLogger`
(log.go lines 87-91) it has not, so the warning path calls `Yellow` on a nil
`OktetoWriter` interface and panics, modelled as `none`. -/
def Logger.loadBool (writerSet : Bool) (value : String) : Option Bool :=
  let v := if value = "" then "false" else value
  match parseBool v with
  | some b => some b
  | none => if writerSet then some false else none

/-- The environment variable controlling spinner animation.  Modelled from
the spec: its declaration is not under src; one boolean environment variable
disables spinner animation outright (spec section 6). -/
def OktetoDisableSpinnerEnvVar : String := "OKTETO_DISABLE_SPINNER"

/-- Logger `NewLogger` (log.go lines 81-98) as a function of the value of the
spinner environment variable.  The spinner literal is built before
`log.writer` is assigned, so `loadBool` runs with a nil writer; moreover when
`loadBool` yields `false` the `&&` in `spinnerSupport` goes on to call
`log.IsInteractive()`, which dereferences the still-nil writer interface and
panics.  Construction therefore completes only when the variable parses to
`true`; `none` models the panic. -/
def NewLogger (level : Logrus.Level) (envDisableSpinner : String) :
    Option LogState :=
  match Logger.loadBool false envDisableSpinner with
  | none => none
  | some disable =>
    if disable then
      some { level := level, writerMode := TTYFormat, stage := "", term := "",
             buf := "", maskedWords := [], isMasked := false, frozenWords := [] }
    else none

/-- A logger state with the zero values the `Logger` struct fields take
before any mutation, at TTY output mode and info level. -/
def initialState : LogState :=
  { level := .infoLevel, writerMode := TTYFormat, stage := "", term := "",
    buf := "", maskedWords := [], isMasked := false, frozenWords := [] }

/-- The initial state switched to plain output mode. -/
def initialPlainState : LogState :=
  { initialState with writerMode := PlainFormat }

/-- The initial state with masking enabled over the frozen word list
containing exactly the secret `"secret"`. -/
def maskedState : LogState :=
  { initialState with isMasked := true, maskedWords := ["secret"],
                      frozenWords := ["secret"] }

/-- Concatenation of the underlying character lists: `String.append` is
defined componentwise on `data`. -/
theorem strData (a b : String) : (a ++ b).data = a.data ++ b.data := rfl

/-- Two strings with the same character list are equal. -/
theorem strExt {a b : String} (h : a.data = b.data) : a = b := by
  cases a; cases b; exact congrArg String.mk h

/-- Left identity of string append. -/
theorem strEmptyAppend (s : String) : "" ++ s = s := by
  cases s; rfl

/-- Right identity of string append. -/
theorem strAppendEmpty (s : String) : s ++ "" = s := by
  cases s; exact congrArg String.mk (List.append_nil _)

/-- Associativity of string append. -/
theorem strAppendAssoc (a b c : String) : (a ++ b) ++ c = a ++ (b ++ c) := by
  cases a; cases b; cases c; exact congrArg String.mk (List.append_assoc _ _ _)

/-- Length of an append is the sum of the lengths. -/
theorem strLenAppend (a b : String) : (a ++ b).length = a.length + b.length := by
  cases a; cases b; exact List.length_append _ _

/-- Claim C1: on the Plain writer variant, `Fprintf` to the out stream with a
non-empty printed text but an empty stage (first conjunct) or a
whitespace-only text under a non-empty stage (second conjunct) appends a bare
newline to the structured buffer, because the source omits the
`if msg != ""` guard present at every other append site; the TTY variant
(third conjunct) with the same input appends nothing.  This exhibits the
failing input refuting the claim that calls with empty stage or empty
trimmed message append nothing, not even a bare newline. -/
theorem plainFprintf_empty_stage_appends_bare_newline :
    (PlainWriter.Fprintf initialPlainState true "hello" 0).buf = "\n" ∧
    (PlainWriter.Fprintf (Logger.SetStage initialPlainState "build") true "   " 0).buf = "\n" ∧
    (TTYWriter.Fprintf initialState true "hello" 0).buf = "" := by
  refine ⟨?_, ?_, ?_⟩ <;> decide

/-- Claim C2, counterexample: with masking enabled on the secret `"secret"`,
`Logger.Debug` hands the raw text `"secret"` to the active writer, not the
redacted `"***"`; the claim that every public logging call passes its
message through `redactMessage` before handing it to the Writer is false for
`Debug`. -/
theorem debug_not_redacted_counterexample :
    Logger.DebugCall maskedState "secret"
      ≠ WriterCall.debugCall (Logger.redactMessage maskedState "secret") := by
  decide

/-- Claim C2, amended: exactly the raw-output family `Print`, `Printf`,
`Println`, `FPrintln` and `Fail` pass the message through `redactMessage`
before handing it to the active Writer, while `Debug`, `Info`, `Error`,
`Success`, `Warning`, `Information`, `Hint` and `Question` hand the formatted
text over unredacted. -/
theorem facade_redaction_exactly_print_family (st : LogState) (msg : String) :
    Logger.PrintCall st msg = .printCall (Logger.redactMessage st msg) ∧
    Logger.PrintfCall st msg = .printCall (Logger.redactMessage st msg) ∧
    Logger.PrintlnCall st msg = .printlnCall (Logger.redactMessage st msg) ∧
    Logger.FPrintlnCall st msg = .fprintlnCall (Logger.redactMessage st msg) ∧
    Logger.FailCall st msg = .failCall (Logger.redactMessage st msg) ∧
    Logger.DebugCall st msg = .debugCall msg ∧
    Logger.InfoCall st msg = .infoCall msg ∧
    Logger.ErrorCall st msg = .errorCall msg ∧
    Logger.SuccessCall st msg = .successCall msg ∧
    Logger.WarningCall st msg = .warningCall msg ∧
    Logger.InformationCall st msg = .informationCall msg ∧
    Logger.HintCall st msg = .hintCall msg ∧
    Logger.QuestionCall st msg = .questionCall msg :=
  ⟨rfl, rfl, rfl, rfl, rfl, rfl, rfl, rfl, rfl, rfl, rfl, rfl, rfl⟩

/-- Claim C3: adding the overlapping secrets `"ab"` and `"abc"` in either
order and then enabling masking redacts `"abcxyz"` to `"***xyz"` — the
longest secret wins because `EnableMasking` sorts the word set descending by
length before building the replacer — and never to the mangled
`"***cxyz"`. -/
theorem enableMasking_longest_match_wins :
    Logger.redactMessage
        (Logger.EnableMasking
          (Logger.AddMaskedWord (Logger.AddMaskedWord initialState "ab") "abc"))
        "abcxyz" = "***xyz" ∧
    Logger.redactMessage
        (Logger.EnableMasking
          (Logger.AddMaskedWord (Logger.AddMaskedWord initialState "abc") "ab"))
        "abcxyz" = "***xyz" ∧
    ("***xyz" : String) ≠ "***cxyz" := by
  refine ⟨?_, ?_, ?_⟩ <;> decide

/-- Claim C5: with the spinner environment variable set to `"banana"` (a
value `strconv.ParseBool` rejects) `NewLogger` does not complete: `loadBool`
runs before `log.writer` is assigned and its warning path invokes `Yellow` on
the nil writer interface, a panic (first two conjuncts).  The value is
treated as `false` with a mere warning only when a writer is in place, as in
the older ordering of the constructor (third conjunct). -/
theorem newLogger_invalid_bool_panics :
    NewLogger .infoLevel "banana" = none ∧
    parseBool "banana" = none ∧
    Logger.loadBool true "banana" = some false := by
  refine ⟨?_, ?_, ?_⟩ <;> decide

/-- Claim C6: a string that does not parse as a level name leaves the state
(hence `GetLevel`) unchanged and, the function being total, surfaces no
error; a valid level name updates the level to the parsed value. -/
theorem setLevel_invalid_keeps_level (st : LogState) (s : String) :
    (Logrus.ParseLevel s = none →
      Logger.SetLevel st s = st ∧
      Logger.GetLevel (Logger.SetLevel st s) = Logger.GetLevel st) ∧
    (∀ l, Logrus.ParseLevel s = some l →
      Logger.SetLevel st s = { st with level := l }) := by
  constructor
  · intro h
    simp [Logger.SetLevel, h]
  · intro l h
    simp [Logger.SetLevel, h]

/-- Claim C6, witness: `"not-a-level"` does not parse and leaves the initial
state unchanged; `"warn"` parses and updates the level. -/
theorem setLevel_invalid_keeps_level_witness :
    Logger.SetLevel initialState "not-a-level" = initialState ∧
    Logger.SetLevel initialState "warn" = { initialState with level := .warnLevel } :=
  ⟨((setLevel_invalid_keeps_level initialState "not-a-level").1 (by decide)).1,
   (setLevel_invalid_keeps_level initialState "warn").2 .warnLevel (by decide)⟩

/-- Claim C7: whenever masking is off — the `isMasked` flag is false, as it
is initially, or right after `DisableMasking` — `redactMessage` returns its
input unchanged. -/
theorem redactMessage_identity_when_unmasked (st : LogState) (msg : String) :
    (st.isMasked = false → Logger.redactMessage st msg = msg) ∧
    Logger.redactMessage (Logger.DisableMasking st) msg = msg := by
  constructor
  · intro h
    simp [Logger.redactMessage, h]
  · simp [Logger.redactMessage, Logger.DisableMasking]

/-- Claim C7, witness: the initial state is unmasked and redaction leaves a
message containing a later secret untouched, also after `DisableMasking` on
a masked state. -/
theorem redactMessage_identity_when_unmasked_witness :
    Logger.redactMessage initialState "token=secret" = "token=secret" ∧
    Logger.redactMessage (Logger.DisableMasking maskedState) "token=secret"
      = "token=secret" :=
  ⟨(redactMessage_identity_when_unmasked initialState "token=secret").1 rfl,
   (redactMessage_identity_when_unmasked maskedState "token=secret").2⟩

/-- Claim C9: `Question` returns the success value `nil` on both writer
variants and through the Logger facade, for every message. -/
theorem question_always_returns_nil (st : LogState) (msg : String) (now : Int) :
    (TTYWriter.Question st msg now).2 = none ∧
    (PlainWriter.Question st msg now).2 = none ∧
    (Logger.Question st msg now).2 = none := by
  refine ⟨rfl, rfl, ?_⟩
  unfold Logger.Question
  split <;> rfl

/-- With a non-empty stage and a message that is non-empty after trimming,
`convertToJSON` produces the JSON encoding of the record. -/
theorem convertToJSON_marshal (level stage message : String) (now : Int)
    (hs : stage ≠ "") (hm : trimRightSpace message ≠ "") :
    convertToJSON level stage message now
      = marshalJSONMessage level (stripAnsiStr (trimRightSpace message)) stage now := by
  unfold convertToJSON
  rw [if_neg]
  rintro (h | h)
  · exact hs h
  · exact hm h

/-- The JSON encoding of a record is never the empty string. -/
theorem marshalJSONMessage_ne_empty (level message stage : String) (ts : Int) :
    marshalJSONMessage level message stage ts ≠ "" := by
  intro h
  have hl := congrArg String.length h
  rw [marshalJSONMessage] at hl
  simp only [strLenAppend] at hl
  have h9 : ("\x7b\"level\":" : String).length = 9 := by decide
  have h0 : ("" : String).length = 0 := by decide
  omega

/-- Records encoded at error level and at info level are distinct strings
whatever the message, stage and timestamp: their lengths differ by one. -/
theorem marshalJSONMessage_error_ne_info (message stage : String) (ts : Int) :
    marshalJSONMessage ErrorLevel message stage ts
      ≠ marshalJSONMessage InfoLevel message stage ts := by
  intro h
  have hl := congrArg String.length h
  rw [marshalJSONMessage, marshalJSONMessage] at hl
  simp only [strLenAppend] at hl
  have he : (qstr ErrorLevel).length = 7 := by decide
  have hi : (qstr InfoLevel).length = 6 := by decide
  omega

/-- Claim C10: for a non-empty stage and a message that survives trimming,
`Print` on the TTY writer appends the structured record at level `"error"`
while `Print` on the Plain writer appends it at level `"info"`, and the two
appended records are never equal: the two Writer variants are not equivalent
on `Print`. -/
theorem print_level_disagreement (st : LogState) (msg : String) (now : Int)
    (hs : st.stage ≠ "") (hm : trimRightSpace msg ≠ "") :
    (TTYWriter.Print st msg now).buf
      = st.buf ++ convertToJSON ErrorLevel st.stage msg now ++ "\n" ∧
    (PlainWriter.Print st msg now).buf
      = st.buf ++ convertToJSON InfoLevel st.stage msg now ++ "\n" ∧
    convertToJSON ErrorLevel st.stage msg now
      ≠ convertToJSON InfoLevel st.stage msg now := by
  have hmsg : msg ≠ "" := by
    intro e
    rw [e] at hm
    exact hm (by decide)
  have hce := convertToJSON_marshal ErrorLevel st.stage msg now hs hm
  have hci := convertToJSON_marshal InfoLevel st.stage msg now hs hm
  have hne1 : convertToJSON ErrorLevel st.stage msg now ≠ "" := by
    rw [hce]; exact marshalJSONMessage_ne_empty _ _ _ _
  have hne2 : convertToJSON InfoLevel st.stage msg now ≠ "" := by
    rw [hci]; exact marshalJSONMessage_ne_empty _ _ _ _
  refine ⟨?_, ?_, ?_⟩
  · unfold TTYWriter.Print
    rw [if_pos hmsg, if_pos hne1]
  · unfold PlainWriter.Print
    rw [if_pos hmsg, if_pos hne2]
  · rw [hce, hci]
    exact marshalJSONMessage_error_ne_info _ _ _

/-- Claim C10, witness at the stage `"deploy"`, message `"hi"`, time 0. -/
theorem print_level_disagreement_witness :
    (TTYWriter.Print (Logger.SetStage initialState "deploy") "hi" 0).buf
      = (Logger.SetStage initialState "deploy").buf
        ++ convertToJSON ErrorLevel (Logger.SetStage initialState "deploy").stage "hi" 0
        ++ "\n" ∧
    (PlainWriter.Print (Logger.SetStage initialState "deploy") "hi" 0).buf
      = (Logger.SetStage initialState "deploy").buf
        ++ convertToJSON InfoLevel (Logger.SetStage initialState "deploy").stage "hi" 0
        ++ "\n" ∧
    convertToJSON ErrorLevel (Logger.SetStage initialState "deploy").stage "hi" 0
      ≠ convertToJSON InfoLevel (Logger.SetStage initialState "deploy").stage "hi" 0 :=
  print_level_disagreement (Logger.SetStage initialState "deploy") "hi" 0
    (by decide) (by decide)

/-- The buffer after a `Print` through the facade is the old buffer followed
by whatever the same call appends starting from an empty buffer: the append
is framed on the existing contents. -/
theorem logger_print_frame (st : LogState) (msg : String) (now : Int) :
    (Logger.Print st msg now).buf
      = st.buf ++ (Logger.Print { st with buf := "" } msg now).buf := by
  unfold Logger.Print TTYWriter.Print PlainWriter.Print
  have hr : Logger.redactMessage { st with buf := "" } msg
      = Logger.redactMessage st msg := rfl
  rw [hr]
  split_ifs <;>
    simp_all [strAppendEmpty, strEmptyAppend, strAppendAssoc]

/-- Claim C4: `SetOutputFormat` swaps the writer while leaving the
accumulated structured buffer untouched — `GetOutputBuffer` returns exactly
the previous contents, nothing replayed or duplicated — and a write issued
after the swap (here through `SetStage` and `Print`) appends to that same
preserved buffer. -/
theorem setOutputFormat_preserves_buffer (st : LogState)
    (fmt s msg : String) (now : Int) :
    Logger.GetOutputBuffer (Logger.SetOutputFormat st fmt)
      = Logger.GetOutputBuffer st ∧
    (Logger.Print (Logger.SetStage (Logger.SetOutputFormat st fmt) s) msg now).buf
      = Logger.GetOutputBuffer st
        ++ (Logger.Print
              { Logger.SetStage (Logger.SetOutputFormat st fmt) s with buf := "" }
              msg now).buf := by
  exact ⟨rfl, logger_print_frame (Logger.SetStage (Logger.SetOutputFormat st fmt) s) msg now⟩

/-- On a list without introducer characters the replace-all pass copies the
input verbatim. -/
theorem stripAnsiFuel_noop (fuel : Nat) (cs : List Char)
    (hf : cs.length ≤ fuel) (h : ∀ c ∈ cs, isEscIntro c = false) :
    stripAnsiFuel fuel cs = cs := by
  induction fuel generalizing cs with
  | zero => rfl
  | succ f ih =>
    cases cs with
    | nil => rfl
    | cons c rest =>
      have hc : isEscIntro c = false := h c (by simp)
      simp only [stripAnsiFuel, hc, Bool.false_eq_true, if_false]
      rw [ih rest (by simpa using Nat.le_of_succ_le_succ hf)
            (fun x hx => h x (by simp [hx]))]

/-- Claim C8, counterexample: stripping is not idempotent.  On
`ESC ESC m m` the leftmost match is the inner `ESC m`, whose removal glues
the leading ESC to the surviving `m`; the output `ESC m` is itself a match
and a second strip erases it. -/
theorem stripAnsi_not_idempotent_counterexample :
    stripAnsiStr (stripAnsiStr "\x1b\x1bmm") ≠ stripAnsiStr "\x1b\x1bmm" ∧
    stripAnsiStr "\x1b\x1bmm" = "\x1bm" ∧
    stripAnsiStr "\x1bm" = "" := by
  refine ⟨?_, ?_, ?_⟩ <;> decide

/-- Claim C8, amended: stripping is a no-op on already-plain text — any
string free of the introducer characters ESC (U+001B) and CSI (U+009B) — and
therefore idempotent on such strings; colorized variants of the same plain
text (SGR-wrapped, single- or multi-parameter) all strip to that plain text.
Unrestricted idempotence fails (see the counterexample). -/
theorem stripAnsi_plain_noop (s : String)
    (h : ∀ c ∈ s.data, c ≠ '\x1b' ∧ c.toNat ≠ 155) :
    stripAnsiStr s = s ∧
    stripAnsiStr (stripAnsiStr s) = stripAnsiStr s ∧
    stripAnsiStr "\x1b[31mhello\x1b[0m" = "hello" ∧
    stripAnsiStr "\x1b[1;32mhello\x1b[0m" = "hello" ∧
    stripAnsiStr "\x1b[35mhello\x1b[0m" = "hello" := by
  have hs : stripAnsiStr s = s := by
    unfold stripAnsiStr
    rw [stripAnsiFuel_noop s.data.length s.data le_rfl (fun c hc => by
      have hc2 := h c hc
      simp [isEscIntro, hc2.1, hc2.2])]
  refine ⟨hs, by simp only [hs], by decide, by decide, by decide⟩

/-- Claim C8, witness: the plain word `"hello"` is unchanged and stripping it
twice agrees with stripping it once. -/
theorem stripAnsi_plain_noop_witness :
    stripAnsiStr "hello" = "hello" ∧
    stripAnsiStr (stripAnsiStr "hello") = stripAnsiStr "hello" ∧
    stripAnsiStr "\x1b[31mhello\x1b[0m" = "hello" ∧
    stripAnsiStr "\x1b[1;32mhello\x1b[0m" = "hello" ∧
    stripAnsiStr "\x1b[35mhello\x1b[0m" = "hello" :=
  stripAnsi_plain_noop "hello" (by decide)
